import Mathlib

/-!
Shallow embedding of `src/Browser/wrapper/index.ts` (the Playwright gRPC
server of robonito-browser) and proofs about its session-state dispatcher.

The engine (Playwright) is opaque: an `Engine` record of functions giving
the result of each engine operation.  Each RPC handler is embedded as a
computation in a monad `M` that threads the single mutable field
`browserState`, records a trace of observable events (engine calls and
callback invocations, in program order), and models an uncaught JavaScript
exception (a rejected promise) as an `Except.error` carrying the message.
-/

namespace Robonito

/-- The gRPC status codes used by the server (`status.FAILED_PRECONDITION`,
`status.NOT_FOUND`) plus `INVALID_ARGUMENT`, which the spec mentions. -/
inductive StatusCode where
  | FAILED_PRECONDITION
  | NOT_FOUND
  | INVALID_ARGUMENT
deriving DecidableEq, Repr

/-- Embeds `class PwserverError extends Error implements ServiceError` (line 16):
an error message together with a gRPC status code. -/
structure PwserverError where
  details : String
  code : StatusCode
deriving DecidableEq, Repr

/-- Embeds `class BrowserState` (line 43): the session triple of browser, context
and page handles.  Handles are opaque and modelled as `Nat` ids. -/
structure BrowserState where
  browser : Nat
  context : Nat
  page : Nat
deriving DecidableEq, Repr

/-- An untyped JavaScript value, as produced by `jsHandle.jsonValue()` and
stored unconverted into a protobuf response field by the handlers. -/
inductive JsonVal where
  | str (s : String)
  | bool (b : Bool)
  | num (n : Int)
  | null
deriving DecidableEq, Repr

/-- JavaScript truthiness of a `JsonVal`, used to model `content || false`. -/
def JsonVal.truthy : JsonVal → Bool
  | .str s => s ≠ ""
  | .bool b => b
  | .num n => n ≠ 0
  | .null => false

/-- Embeds `Response.Empty`: an acknowledgement carrying a log line. -/
structure RespEmpty where
  log : String
deriving DecidableEq, Repr

/-- Embeds `emptyWithLog` (line 54). -/
def emptyWithLog (text : String) : RespEmpty := { log := text }

/-- Embeds `Response.String`: the body is whatever untyped value the handler put
into `setBody`. -/
structure RespString where
  body : JsonVal
deriving DecidableEq, Repr

/-- Embeds `Response.Bool`. -/
structure RespBool where
  body : JsonVal
deriving DecidableEq, Repr

/-- Embeds `SelectEntry`: one option of a select element. -/
structure SelectEntry where
  label : String
  value : String
  selected : Bool
deriving DecidableEq, Repr

/-- Embeds `Response.Select`: the list of entries added by `addEntry`, in order. -/
structure RespSelect where
  entries : List SelectEntry
deriving DecidableEq, Repr

/-- One engine (Playwright) operation as issued by the server, with its
arguments. -/
inductive EngineCall where
  | launch (kind : String)
  | newContext (browser : Nat)
  | newPage (context : Nat)
  | browserClose (browser : Nat)
  | pageGoto (page : Nat) (url : String)
  | pageTitle (page : Nat)
  | pageUrl (page : Nat)
  | pageTextContent (page : Nat) (selector : String)
  | querySelector (page : Nat) (selector : String)
  | getProperty (element : Nat) (property : String)
  | jsonValue (handle : Nat)
  | evalOptions (page : Nat) (selector : String)
  | pageFill (page : Nat) (selector : String) (text : String)
  | pageClick (page : Nat) (selector : String)
  | pageCheck (page : Nat) (selector : String)
  | pageUncheck (page : Nat) (selector : String)
  | pageSelectOption (page : Nat) (selector : String) (matcher : List String)
  | pageScreenshot (page : Nat) (path : String)
deriving DecidableEq, Repr

/-- The opaque browser-automation engine: for every operation, either a
result (`Except.ok`) or a rejected promise (`Except.error msg`). -/
structure Engine where
  launch : String → Except String Nat
  newContext : Nat → Except String Nat
  newPage : Nat → Except String Nat
  browserClose : Nat → Except String Unit
  pageGoto : Nat → String → Except String Unit
  pageTitle : Nat → Except String String
  pageUrl : Nat → Except String String
  pageTextContent : Nat → String → Except String (Option String)
  querySelector : Nat → String → Except String (Option Nat)
  getProperty : Nat → String → Except String Nat
  jsonValue : Nat → Except String JsonVal
  evalOptions : Nat → String → Except String (List (String × String × Bool))
  pageFill : Nat → String → String → Except String Unit
  pageClick : Nat → String → Except String Unit
  pageCheck : Nat → String → Except String Unit
  pageUncheck : Nat → String → Except String Unit
  pageSelectOption : Nat → String → List String → Except String (List String)
  pageScreenshot : Nat → String → Except String Unit

/-- An observable event of one handler run: an engine call being issued, or
the gRPC callback being invoked.  `callback(err, null)` is
`cb (some err) none`; `callback(null, response)` is `cb none (some resp)`. -/
inductive Event (T : Type) where
  | engine (c : EngineCall)
  | cb (err : Option PwserverError) (resp : Option T)
deriving DecidableEq, Repr

/-- The mutable context a handler runs in: the server field
`private browserState?: BrowserState` plus the accumulated event trace. -/
structure Ctx (T : Type) where
  browserState : Option BrowserState
  trace : List (Event T)

/-- Handler computations: state/trace threading with JavaScript exceptions
(a rejected `await` aborts the rest of the async function body). -/
def M (T α : Type) : Type := Ctx T → Except String α × Ctx T

def M.pure (a : α) : M T α := fun ctx => (.ok a, ctx)

def M.bind (x : M T α) (f : α → M T β) : M T β := fun ctx =>
  match x ctx with
  | (.ok a, ctx2) => f a ctx2
  | (.error e, ctx2) => (.error e, ctx2)

instance instMonadM : Monad (M T) where
  pure := M.pure
  bind := M.bind

/-- Read `this.browserState`. -/
def getBrowserState : M T (Option BrowserState) := fun ctx =>
  (.ok ctx.browserState, ctx)

/-- Assign `this.browserState`. -/
def setBrowserState (s : Option BrowserState) : M T Unit := fun ctx =>
  (.ok (), { ctx with browserState := s })

/-- Invoke the gRPC callback (recorded in the trace; the handler continues
afterwards, exactly as in the source). -/
def callback (err : Option PwserverError) (resp : Option T) : M T Unit :=
  fun ctx => (.ok (), { ctx with trace := ctx.trace ++ [.cb err resp] })

/-- Issue an engine operation: the call is recorded in the trace whether it
succeeds or rejects; a rejection aborts the handler body. -/
def engineOp (c : EngineCall) (r : Except String α) : M T α :=
  fun ctx => (r, { ctx with trace := ctx.trace ++ [.engine c] })

/-- Throw a JavaScript error (uncaught in every handler). -/
def throwJs (msg : String) : M T α := fun ctx => (.error msg, ctx)

/-- The runtime error raised by reading a property of
`undefined`/`null`. -/
def jsTypeError : String := "TypeError: cannot read property of undefined"

/-- Embeds `function exists<T1, T2>(obj, callback, message)` (line 10): if `obj` is
not truthy, invoke the callback with a `FAILED_PRECONDITION` error — and
then RETURN NORMALLY (the function neither throws nor makes the caller
return). -/
def existsCheck (obj : Option α) (message : String) : M T Unit := do
  if obj.isNone then
    callback (some ⟨message, .FAILED_PRECONDITION⟩) none

/-- Reading a field of `this.browserState` after a failed `existsCheck`:
on `undefined` this throws a TypeError. -/
def derefState (s : Option BrowserState) : M T BrowserState :=
  match s with
  | none => throwJs jsTypeError
  | some bs => M.pure bs

/-- Calling a method of a possibly-`null` element handle. -/
def derefElement (e : Option Nat) : M T Nat :=
  match e with
  | none => throwJs jsTypeError
  | some h => M.pure h

/-- Embeds `createBrowserState(browserType)` (line 25): dispatch on the browser
kind, launching the matching engine, else `throw new Error("unsupported
browser")` (a plain Error, no status code); then create context and page. -/
def createBrowserState (eng : Engine) (browserType : String) :
    M T BrowserState := do
  let browser ←
    if browserType = "firefox" then
      engineOp (.launch "firefox") (eng.launch "firefox")
    else if browserType = "chrome" then
      engineOp (.launch "chrome") (eng.launch "chrome")
    else if browserType = "webkit" then
      engineOp (.launch "webkit") (eng.launch "webkit")
    else
      throwJs "unsupported browser"
  let context ← engineOp (.newContext browser) (eng.newContext browser)
  let page ← engineOp (.newPage context) (eng.newPage context)
  M.pure ⟨browser, context, page⟩

/-- Embeds `openUrlInPage(url, page)` (line 64). -/
def openUrlInPage (eng : Engine) (url : String) (page : Nat) :
    M T String := do
  let _ ← engineOp (.pageGoto page url) (eng.pageGoto page url)
  M.pure ("Succesfully opened URL " ++ url)

/-- Embeds `closeBrowser` (line 71). -/
def closeBrowser (eng : Engine) : M RespEmpty Unit := do
  let st ← getBrowserState
  existsCheck st "Tried to close browser but none was open"
  let bs ← derefState st
  let _ ← engineOp (.browserClose bs.browser) (eng.browserClose bs.browser)
  setBrowserState none
  callback none (some (emptyWithLog "Closed browser"))

/-- Embeds `openBrowser` (line 81): create and STORE the new session, then — if a
URL was supplied — navigate, and finally invoke the callback with the
response (whose log is set only when a navigation happened). -/
def openBrowser (eng : Engine) (browserType url : String) :
    M RespEmpty Unit := do
  let bs ← createBrowserState eng browserType
  setBrowserState (some bs)
  if url ≠ "" then
    let ret ← openUrlInPage eng url bs.page
    callback none (some { log := ret })
  else
    callback none (some { log := "" })

/-- Embeds `goTo` (line 96). -/
def goTo (eng : Engine) (url : String) : M RespEmpty Unit := do
  let st ← getBrowserState
  existsCheck st "Tried to open URl but had no browser open"
  let bs ← derefState st
  let _ ← engineOp (.pageGoto bs.page url) (eng.pageGoto bs.page url)
  callback none (some (emptyWithLog "Succesfully opened URL"))

/-- Embeds `getTitle` (line 105). -/
def getTitle (eng : Engine) : M RespString Unit := do
  let st ← getBrowserState
  existsCheck st "Tried to get title, no open browser"
  let bs ← derefState st
  let title ← engineOp (.pageTitle bs.page) (eng.pageTitle bs.page)
  callback none (some { body := .str title })

/-- Embeds `getUrl` (line 114). -/
def getUrl (eng : Engine) : M RespString Unit := do
  let st ← getBrowserState
  existsCheck st "Tried to get page URL, no open browser"
  let bs ← derefState st
  let url ← engineOp (.pageUrl bs.page) (eng.pageUrl bs.page)
  callback none (some { body := .str url })

/-- Embeds `getTextContent` (line 124): body is `content?.toString() || ""`. -/
def getTextContent (eng : Engine) (selector : String) : M RespString Unit := do
  let st ← getBrowserState
  existsCheck st "Tried to find text on page, no open browser"
  let bs ← derefState st
  let content ← engineOp (.pageTextContent bs.page selector)
    (eng.pageTextContent bs.page selector)
  callback none (some { body := .str (content.getD "") })

/-- Embeds `getDomProperty` (line 134). -/
def getDomProperty (eng : Engine) (selector property : String) :
    M RespString Unit := do
  let st ← getBrowserState
  existsCheck st "Tried to get DOM property, no open browser"
  let bs ← derefState st
  let element ← engineOp (.querySelector bs.page selector)
    (eng.querySelector bs.page selector)
  existsCheck element ("Couldn\x27t find element: " ++ selector)
  let el ← derefElement element
  let result ← engineOp (.getProperty el property) (eng.getProperty el property)
  let content ← engineOp (.jsonValue result) (eng.jsonValue result)
  callback none (some { body := content })

/-- Embeds `getBoolProperty` (line 151): body is `content || false`. -/
def getBoolProperty (eng : Engine) (selector property : String) :
    M RespBool Unit := do
  let st ← getBrowserState
  existsCheck st "Tried to get DOM property, no open browser"
  let bs ← derefState st
  let element ← engineOp (.querySelector bs.page selector)
    (eng.querySelector bs.page selector)
  existsCheck element ("Couldn\x27t find element: " ++ selector)
  let el ← derefElement element
  let result ← engineOp (.getProperty el property) (eng.getProperty el property)
  let content ← engineOp (.jsonValue result) (eng.jsonValue result)
  callback none (some { body := if content.truthy then content else .bool false })

/-- Embeds `getSelectContent` (line 168): `$$eval(selector + " option", ...)`
yields (label, value, selected) triples; one `SelectEntry` is added per
triple, in order. -/
def getSelectContent (eng : Engine) (selector : String) : M RespSelect Unit := do
  let st ← getBrowserState
  existsCheck st "Tried to get Select element contents, no open browser"
  let bs ← derefState st
  let content ← engineOp (.evalOptions bs.page (selector ++ " option"))
    (eng.evalOptions bs.page (selector ++ " option"))
  let entries := content.map (fun opt => SelectEntry.mk opt.1 opt.2.1 opt.2.2)
  callback none (some { entries := entries })

/-- Embeds `inputText` (line 190). -/
def inputText (eng : Engine) (selector input : String) : M RespEmpty Unit := do
  let st ← getBrowserState
  existsCheck st "Tried to input text, no open browser"
  let bs ← derefState st
  let _ ← engineOp (.pageFill bs.page selector input)
    (eng.pageFill bs.page selector input)
  callback none (some (emptyWithLog ("Input text: " ++ input)))

/-- Embeds `clickButton` (line 200). -/
def clickButton (eng : Engine) (selector : String) : M RespEmpty Unit := do
  let st ← getBrowserState
  existsCheck st "Tried to click button, no open browser"
  let bs ← derefState st
  let _ ← engineOp (.pageClick bs.page selector) (eng.pageClick bs.page selector)
  callback none (some (emptyWithLog ("Clicked button: " ++ selector)))

/-- Embeds `checkCheckbox` (line 209). -/
def checkCheckbox (eng : Engine) (selector : String) : M RespEmpty Unit := do
  let st ← getBrowserState
  existsCheck st "Tried to check checkbox, no open browser"
  let bs ← derefState st
  let _ ← engineOp (.pageCheck bs.page selector) (eng.pageCheck bs.page selector)
  callback none (some (emptyWithLog ("Checked checkbox: " ++ selector)))

/-- Embeds `uncheckCheckbox` (line 216) (the "Unhecked" typo is the source's). -/
def uncheckCheckbox (eng : Engine) (selector : String) : M RespEmpty Unit := do
  let st ← getBrowserState
  existsCheck st "Tried to uncheck checkbox, no open browser"
  let bs ← derefState st
  let _ ← engineOp (.pageUncheck bs.page selector)
    (eng.pageUncheck bs.page selector)
  callback none (some (emptyWithLog ("Unhecked checkbox: " ++ selector)))

/-- Embeds `selectOption` (line 224): always performs the engine call; if the
result list is empty it invokes the callback with a `NOT_FOUND` error, and
— the `if` body has no `return` — falls through to the success callback in
every case. -/
def selectOption (eng : Engine) (selector : String) (matcher : List String) :
    M RespEmpty Unit := do
  let st ← getBrowserState
  existsCheck st "Tried to select ``select`` element option, no open browser"
  let bs ← derefState st
  let result ← engineOp (.pageSelectOption bs.page selector matcher)
    (eng.pageSelectOption bs.page selector matcher)
  if result.length = 0 then
    callback (some ⟨"No options matched " ++ String.intercalate "," matcher,
      .NOT_FOUND⟩) none
  callback none (some (emptyWithLog ("Selected options " ++
    String.intercalate "," result ++ " in element " ++ selector)))

/-- Embeds `health` (line 239): no precondition, no engine call. -/
def health : M RespString Unit := do
  callback none (some { body := .str "OK" })

/-- Embeds `screenshot` (line 245): `.png` is appended to the requested path. -/
def screenshot (eng : Engine) (path : String) : M RespEmpty Unit := do
  let st ← getBrowserState
  existsCheck st "Tried to take screenshot, no open browser"
  let pathPng := path ++ ".png"
  let bs ← derefState st
  let _ ← engineOp (.pageScreenshot bs.page pathPng)
    (eng.pageScreenshot bs.page pathPng)
  callback none (some (emptyWithLog "Succesfully took screenshot"))

/-- Outcome of running one handler from a given stored session: the stored
session afterwards, the event trace, and the uncaught exception if the
async body rejected. -/
structure HandlerRun (T : Type) where
  state : Option BrowserState
  trace : List (Event T)
  thrown : Option String
deriving DecidableEq, Repr

/-- Run a handler from a stored-session value. -/
def run (h : M T Unit) (st : Option BrowserState) : HandlerRun T :=
  match h { browserState := st, trace := [] } with
  | (.ok _, ctx) => { state := ctx.browserState, trace := ctx.trace, thrown := none }
  | (.error e, ctx) => { state := ctx.browserState, trace := ctx.trace, thrown := some e }

/-- Whether an event is an engine call. -/
def Event.isEngine : Event T → Bool
  | .engine _ => true
  | .cb _ _ => false

/-! ## Concrete engines for witnesses and counterexamples -/

/-- A concrete engine on which every operation succeeds; `evalOptions`
yields the two-option select of spec §8. -/
def okEngine : Engine where
  launch := fun _ => .ok 1
  newContext := fun _ => .ok 2
  newPage := fun _ => .ok 3
  browserClose := fun _ => .ok ()
  pageGoto := fun _ _ => .ok ()
  pageTitle := fun _ => .ok "t"
  pageUrl := fun _ => .ok "u"
  pageTextContent := fun _ _ => .ok (some "txt")
  querySelector := fun _ _ => .ok (some 7)
  getProperty := fun _ _ => .ok 8
  jsonValue := fun _ => .ok (.str "v")
  evalOptions := fun _ _ => .ok [("A", "a", true), ("B", "b", false)]
  pageFill := fun _ _ _ => .ok ()
  pageClick := fun _ _ => .ok ()
  pageCheck := fun _ _ => .ok ()
  pageUncheck := fun _ _ => .ok ()
  pageSelectOption := fun _ _ _ => .ok ["a"]
  pageScreenshot := fun _ _ => .ok ()

/-- Engine whose `browser.close()` rejects. -/
def closeFailEngine : Engine := { okEngine with browserClose := fun _ => .error "close failed" }

/-- Engine whose `page.goto` rejects. -/
def gotoFailEngine : Engine := { okEngine with pageGoto := fun _ _ => .error "nav failed" }

/-- Engine on which `page.$` finds no element. -/
def elemNotFoundEngine : Engine := { okEngine with querySelector := fun _ _ => .ok none }

/-- Engine on which `page.selectOption` matches nothing. -/
def emptySelectEngine : Engine :=
  { okEngine with pageSelectOption := fun _ _ _ => .ok [] }

/-! ## Claims -/

/-- C1: every operation other than OpenBrowser and Health, invoked while no
session is open, produces exactly one observable event — the callback
invoked with a `FAILED_PRECONDITION` error carrying that operation's
message — and in particular issues no engine call. -/
theorem C1_no_session_is_failed_precondition_without_engine_call
    (eng : Engine) (url sel prop path input : String) (m : List String) :
    (run (closeBrowser eng) none).trace =
      [.cb (some ⟨"Tried to close browser but none was open", .FAILED_PRECONDITION⟩) none] ∧
    (run (goTo eng url) none).trace =
      [.cb (some ⟨"Tried to open URl but had no browser open", .FAILED_PRECONDITION⟩) none] ∧
    (run (getTitle eng) none).trace =
      [.cb (some ⟨"Tried to get title, no open browser", .FAILED_PRECONDITION⟩) none] ∧
    (run (getUrl eng) none).trace =
      [.cb (some ⟨"Tried to get page URL, no open browser", .FAILED_PRECONDITION⟩) none] ∧
    (run (getTextContent eng sel) none).trace =
      [.cb (some ⟨"Tried to find text on page, no open browser", .FAILED_PRECONDITION⟩) none] ∧
    (run (getDomProperty eng sel prop) none).trace =
      [.cb (some ⟨"Tried to get DOM property, no open browser", .FAILED_PRECONDITION⟩) none] ∧
    (run (getBoolProperty eng sel prop) none).trace =
      [.cb (some ⟨"Tried to get DOM property, no open browser", .FAILED_PRECONDITION⟩) none] ∧
    (run (getSelectContent eng sel) none).trace =
      [.cb (some ⟨"Tried to get Select element contents, no open browser", .FAILED_PRECONDITION⟩) none] ∧
    (run (inputText eng sel input) none).trace =
      [.cb (some ⟨"Tried to input text, no open browser", .FAILED_PRECONDITION⟩) none] ∧
    (run (clickButton eng sel) none).trace =
      [.cb (some ⟨"Tried to click button, no open browser", .FAILED_PRECONDITION⟩) none] ∧
    (run (checkCheckbox eng sel) none).trace =
      [.cb (some ⟨"Tried to check checkbox, no open browser", .FAILED_PRECONDITION⟩) none] ∧
    (run (uncheckCheckbox eng sel) none).trace =
      [.cb (some ⟨"Tried to uncheck checkbox, no open browser", .FAILED_PRECONDITION⟩) none] ∧
    (run (selectOption eng sel m) none).trace =
      [.cb (some ⟨"Tried to select ``select`` element option, no open browser", .FAILED_PRECONDITION⟩) none] ∧
    (run (screenshot eng path) none).trace =
      [.cb (some ⟨"Tried to take screenshot, no open browser", .FAILED_PRECONDITION⟩) none] :=
  ⟨rfl, rfl, rfl, rfl, rfl, rfl, rfl, rfl, rfl, rfl, rfl, rfl, rfl, rfl⟩

/-- C10: the `exists` precondition check sends the error response but then
returns normally (`Except.ok`, not an abort), so every session-requiring
handler run with no open session continues past the error response and then
throws a TypeError by dereferencing the absent (`undefined`) session. -/
theorem C10_exists_returns_normally_and_handlers_deref_undefined
    (T : Type) (ctx : Ctx T) (msg : String) (eng : Engine)
    (url sel prop path input : String) (m : List String) :
    (existsCheck (none : Option BrowserState) msg : M T Unit) ctx =
      (.ok (), { ctx with trace := ctx.trace ++ [.cb (some ⟨msg, .FAILED_PRECONDITION⟩) none] }) ∧
    (run (closeBrowser eng) none).thrown = some jsTypeError ∧
    (run (goTo eng url) none).thrown = some jsTypeError ∧
    (run (getTitle eng) none).thrown = some jsTypeError ∧
    (run (getUrl eng) none).thrown = some jsTypeError ∧
    (run (getTextContent eng sel) none).thrown = some jsTypeError ∧
    (run (getDomProperty eng sel prop) none).thrown = some jsTypeError ∧
    (run (getBoolProperty eng sel prop) none).thrown = some jsTypeError ∧
    (run (getSelectContent eng sel) none).thrown = some jsTypeError ∧
    (run (inputText eng sel input) none).thrown = some jsTypeError ∧
    (run (clickButton eng sel) none).thrown = some jsTypeError ∧
    (run (checkCheckbox eng sel) none).thrown = some jsTypeError ∧
    (run (uncheckCheckbox eng sel) none).thrown = some jsTypeError ∧
    (run (selectOption eng sel m) none).thrown = some jsTypeError ∧
    (run (screenshot eng path) none).thrown = some jsTypeError :=
  ⟨rfl, rfl, rfl, rfl, rfl, rfl, rfl, rfl, rfl, rfl, rfl, rfl, rfl, rfl, rfl⟩

/-- C2 (counterexample): `OpenBrowser` with the unsupported kind "edge"
does NOT fail with an `InvalidArgument`-coded error: no callback is invoked
at all (the trace is empty, so in particular no error response carrying
`INVALID_ARGUMENT` and no engine launch), and the handler instead rejects
with the plain uncoded `Error("unsupported browser")`. -/
theorem C2_counterexample_unsupported_kind_has_no_invalid_argument_code :
    (run (openBrowser okEngine "edge" "http://x") none).trace = [] ∧
    (run (openBrowser okEngine "edge" "http://x") none).thrown =
      some "unsupported browser" := by
  exact ⟨rfl, rfl⟩

/-- C2 (amended): for every OpenBrowser call whose browser-kind argument is
not one of chrome/firefox/webkit, the handler performs no engine launch and
invokes no callback; it fails by throwing the plain `Error("unsupported
browser")`, which carries a message but no gRPC status code (so the failure
is unclassified rather than `InvalidArgument`). -/
theorem C2_amended_unsupported_kind_throws_plain_error
    (eng : Engine) (st : Option BrowserState) (kind url : String)
    (h1 : kind ≠ "firefox") (h2 : kind ≠ "chrome") (h3 : kind ≠ "webkit") :
    run (openBrowser eng kind url) st =
      { state := st, trace := [], thrown := some "unsupported browser" } := by
  simp [run, openBrowser, createBrowserState, instMonadM, bind, M.bind, pure, M.pure,
    throwJs, h1, h2, h3]

/-- Witness for the amended C2, at the concrete kind "edge". -/
theorem C2_amended_witness :
    run (openBrowser okEngine "edge" "http://x") none =
      { state := none, trace := [], thrown := some "unsupported browser" } :=
  C2_amended_unsupported_kind_throws_plain_error okEngine none "edge" "http://x"
    (by decide) (by decide) (by decide)

/-- C3 (counterexample): when the engine's browser-release operation fails,
`CloseBrowser` does NOT clear the stored session — the assignment
`this.browserState = undefined` sits after the rejected `await`, so the
session reference survives. -/
theorem C3_counterexample_close_failure_keeps_session :
    (run (closeBrowser closeFailEngine) (some ⟨1, 2, 3⟩)).state = some ⟨1, 2, 3⟩ ∧
    (run (closeBrowser closeFailEngine) (some ⟨1, 2, 3⟩)).state ≠ none := by
  exact ⟨rfl, by decide⟩

/-- C3 (amended): for every CloseBrowser call made while a session is open,
the stored session is cleared exactly when the engine's browser-release
operation succeeds; when the release fails, the session reference is left
in place and the release error propagates uncaught. -/
theorem C3_amended_close_clears_session_only_on_release_success
    (eng : Engine) (bs : BrowserState) :
    (eng.browserClose bs.browser = .ok () →
      run (closeBrowser eng) (some bs) =
        { state := none,
          trace := [.engine (.browserClose bs.browser),
            .cb none (some (emptyWithLog "Closed browser"))],
          thrown := none }) ∧
    (∀ e : String, eng.browserClose bs.browser = .error e →
      run (closeBrowser eng) (some bs) =
        { state := some bs,
          trace := [.engine (.browserClose bs.browser)],
          thrown := some e }) := by
  constructor
  · intro h
    simp [run, closeBrowser, instMonadM, bind, M.bind, pure, M.pure, getBrowserState,
      existsCheck, derefState, engineOp, setBrowserState, callback, h]
  · intro e h
    simp [run, closeBrowser, instMonadM, bind, M.bind, pure, M.pure, getBrowserState,
      existsCheck, derefState, engineOp, setBrowserState, callback, h]

/-- Witness for the amended C3: both branches at concrete engines. -/
theorem C3_amended_witness :
    run (closeBrowser okEngine) (some ⟨1, 2, 3⟩) =
      { state := none,
        trace := [.engine (.browserClose 1),
          .cb none (some (emptyWithLog "Closed browser"))],
        thrown := none } ∧
    run (closeBrowser closeFailEngine) (some ⟨1, 2, 3⟩) =
      { state := some ⟨1, 2, 3⟩,
        trace := [.engine (.browserClose 1)],
        thrown := some "close failed" } :=
  ⟨(C3_amended_close_clears_session_only_on_release_success okEngine ⟨1, 2, 3⟩).1 rfl,
   (C3_amended_close_clears_session_only_on_release_success closeFailEngine ⟨1, 2, 3⟩).2
     "close failed" rfl⟩

/-- C4: an OpenBrowser call with a supported kind and a non-empty initial
URL on which browser/context/page creation succeeds but the navigation
fails still creates AND stores the session (the navigation error propagates
after the assignment; nothing rolls the session back). -/
theorem C4_navigation_failure_still_stores_session
    (eng : Engine) (st : Option BrowserState) (kind url e : String) (b c p : Nat)
    (hk : kind = "chrome" ∨ kind = "firefox" ∨ kind = "webkit")
    (hl : eng.launch kind = .ok b) (hc : eng.newContext b = .ok c)
    (hp : eng.newPage c = .ok p) (hu : url ≠ "")
    (hg : eng.pageGoto p url = .error e) :
    run (openBrowser eng kind url) st =
      { state := some ⟨b, c, p⟩,
        trace := [.engine (.launch kind), .engine (.newContext b),
          .engine (.newPage c), .engine (.pageGoto p url)],
        thrown := some e } := by
  rcases hk with hk | hk | hk <;> subst hk <;>
    simp [run, openBrowser, createBrowserState, openUrlInPage, instMonadM, bind, M.bind,
      pure, M.pure, engineOp, setBrowserState, callback, hl, hc, hp, hu, hg]

/-- Witness for C4, with a concrete engine whose navigation rejects. -/
theorem C4_witness :
    run (openBrowser gotoFailEngine "chrome" "http://x") none =
      { state := some ⟨1, 2, 3⟩,
        trace := [.engine (.launch "chrome"), .engine (.newContext 1),
          .engine (.newPage 2), .engine (.pageGoto 3 "http://x")],
        thrown := some "nav failed" } :=
  C4_navigation_failure_still_stores_session gotoFailEngine none "chrome" "http://x"
    "nav failed" 1 2 3 (Or.inl rfl) rfl rfl rfl (by decide) rfl

/-- C5: with an open session, `SelectOption` always issues the engine
select call as its first observable action; when the engine call completes,
a `NOT_FOUND` error naming the matchers is reported exactly when the list
of selected values is empty (after the engine call in the trace, never
before it), and a success acknowledgement listing the selected values is
returned when the list is non-empty. -/
theorem C5_selectOption_notfound_after_engine_call_iff_empty
    (eng : Engine) (bs : BrowserState) (sel : String) (m : List String) :
    (run (selectOption eng sel m) (some bs)).trace.head? =
      some (.engine (.pageSelectOption bs.page sel m)) ∧
    ∀ result : List String, eng.pageSelectOption bs.page sel m = .ok result →
      ((run (selectOption eng sel m) (some bs)).trace =
        if result.length = 0 then
          [.engine (.pageSelectOption bs.page sel m),
           .cb (some ⟨"No options matched " ++ String.intercalate "," m, .NOT_FOUND⟩) none,
           .cb none (some (emptyWithLog ("Selected options " ++
             String.intercalate "," result ++ " in element " ++ sel)))]
        else
          [.engine (.pageSelectOption bs.page sel m),
           .cb none (some (emptyWithLog ("Selected options " ++
             String.intercalate "," result ++ " in element " ++ sel)))]) ∧
      ((Event.cb (some ⟨"No options matched " ++ String.intercalate "," m, .NOT_FOUND⟩)
          none ∈ (run (selectOption eng sel m) (some bs)).trace) ↔ result = []) := by
  constructor
  · rcases h : eng.pageSelectOption bs.page sel m with e | r
    · simp [run, selectOption, instMonadM, bind, M.bind, pure, M.pure, getBrowserState,
        existsCheck, derefState, engineOp, callback, h]
    · rcases r with _ | ⟨a, as⟩ <;>
        simp [run, selectOption, instMonadM, bind, M.bind, pure, M.pure, getBrowserState,
          existsCheck, derefState, engineOp, callback, h]
  · intro result h
    rcases result with _ | ⟨a, as⟩ <;>
      simp [run, selectOption, instMonadM, bind, M.bind, pure, M.pure, getBrowserState,
        existsCheck, derefState, engineOp, callback, h]

/-- Witness for C5: the empty-match branch on a concrete engine. -/
theorem C5_witness :
    (run (selectOption emptySelectEngine "#s" ["x"]) (some ⟨1, 2, 3⟩)).trace =
      [.engine (.pageSelectOption 3 "#s" ["x"]),
       .cb (some ⟨"No options matched x", .NOT_FOUND⟩) none,
       .cb none (some (emptyWithLog "Selected options  in element #s"))] := by
  have h := (C5_selectOption_notfound_after_engine_call_iff_empty emptySelectEngine
    ⟨1, 2, 3⟩ "#s" ["x"]).2 [] rfl
  simpa using h.1

/-- Helper: the full run of `openBrowser` for a supported kind whose
launch, context and page creations succeed, for any url and any
navigation outcome. -/
theorem openBrowser_run
    (eng : Engine) (st : Option BrowserState) (kind url : String) (b c p : Nat)
    (hk : kind = "chrome" ∨ kind = "firefox" ∨ kind = "webkit")
    (hl : eng.launch kind = .ok b) (hc : eng.newContext b = .ok c)
    (hp : eng.newPage c = .ok p) :
    run (openBrowser eng kind url) st =
      if url = "" then
        { state := some ⟨b, c, p⟩,
          trace := [.engine (.launch kind), .engine (.newContext b),
            .engine (.newPage c), .cb none (some { log := "" })],
          thrown := none }
      else
        match eng.pageGoto p url with
        | .ok _ =>
          { state := some ⟨b, c, p⟩,
            trace := [.engine (.launch kind), .engine (.newContext b),
              .engine (.newPage c), .engine (.pageGoto p url),
              .cb none (some { log := "Succesfully opened URL " ++ url })],
            thrown := none }
        | .error e =>
          { state := some ⟨b, c, p⟩,
            trace := [.engine (.launch kind), .engine (.newContext b),
              .engine (.newPage c), .engine (.pageGoto p url)],
            thrown := some e } := by
  rcases hk with hk | hk | hk <;> subst hk <;> by_cases hu : url = "" <;>
    rcases hg : eng.pageGoto p url with u | e <;>
    simp [run, openBrowser, createBrowserState, openUrlInPage, instMonadM, bind, M.bind,
      pure, M.pure, engineOp, setBrowserState, callback, hl, hc, hp, hu, hg]

/-- C6: an OpenBrowser call with a supported kind arriving while a session
is already open overwrites the stored session with the newly created one,
and its trace contains no browser-release engine call whatsoever — the
previous session's browser handle is silently abandoned. -/
theorem C6_open_while_open_overwrites_and_never_releases
    (eng : Engine) (oldBs : BrowserState) (kind url : String) (b c p : Nat)
    (hk : kind = "chrome" ∨ kind = "firefox" ∨ kind = "webkit")
    (hl : eng.launch kind = .ok b) (hc : eng.newContext b = .ok c)
    (hp : eng.newPage c = .ok p) :
    (run (openBrowser eng kind url) (some oldBs)).state = some ⟨b, c, p⟩ ∧
    ∀ n : Nat, Event.engine (EngineCall.browserClose n) ∉
      (run (openBrowser eng kind url) (some oldBs)).trace := by
  have h := openBrowser_run eng (some oldBs) kind url b c p hk hl hc hp
  rw [h]
  by_cases hu : url = ""
  · simp [hu]
  · rcases hg : eng.pageGoto p url with u | e <;> simp [hu, hg]

/-- Witness for C6 at a concrete open-while-open call. -/
theorem C6_witness :
    (run (openBrowser okEngine "firefox" "") (some ⟨9, 9, 9⟩)).state = some ⟨1, 2, 3⟩ ∧
    Event.engine (EngineCall.browserClose 9) ∉
      (run (openBrowser okEngine "firefox" "") (some ⟨9, 9, 9⟩)).trace :=
  ⟨(C6_open_while_open_overwrites_and_never_releases okEngine ⟨9, 9, 9⟩ "firefox" ""
      1 2 3 (Or.inr (Or.inl rfl)) rfl rfl rfl).1,
   (C6_open_while_open_overwrites_and_never_releases okEngine ⟨9, 9, 9⟩ "firefox" ""
      1 2 3 (Or.inr (Or.inl rfl)) rfl rfl rfl).2 9⟩

/-- C7: `GetDomProperty` and `GetBoolProperty` report `FAILED_PRECONDITION`
errors in both failure cases, with distinct messages — the fixed
"Tried to get DOM property, no open browser" when no session is open, and
"Couldn't find element: " followed by the selector when the session is open
but the selector matches no element. -/
theorem C7_property_handlers_distinct_precondition_messages
    (eng : Engine) (bs : BrowserState) (sel prop : String) :
    (run (getDomProperty eng sel prop) none).trace =
      [.cb (some ⟨"Tried to get DOM property, no open browser", .FAILED_PRECONDITION⟩) none] ∧
    (run (getBoolProperty eng sel prop) none).trace =
      [.cb (some ⟨"Tried to get DOM property, no open browser", .FAILED_PRECONDITION⟩) none] ∧
    (eng.querySelector bs.page sel = .ok none →
      (run (getDomProperty eng sel prop) (some bs)).trace =
        [.engine (.querySelector bs.page sel),
         .cb (some ⟨"Couldn\x27t find element: " ++ sel, .FAILED_PRECONDITION⟩) none]) ∧
    (eng.querySelector bs.page sel = .ok none →
      (run (getBoolProperty eng sel prop) (some bs)).trace =
        [.engine (.querySelector bs.page sel),
         .cb (some ⟨"Couldn\x27t find element: " ++ sel, .FAILED_PRECONDITION⟩) none]) ∧
    "Couldn\x27t find element: " ++ sel ≠ "Tried to get DOM property, no open browser" := by
  refine ⟨rfl, rfl, ?_, ?_, ?_⟩
  · intro h
    simp [run, getDomProperty, instMonadM, bind, M.bind, pure, M.pure, getBrowserState,
      existsCheck, derefState, derefElement, throwJs, engineOp, callback, h]
  · intro h
    simp [run, getBoolProperty, instMonadM, bind, M.bind, pure, M.pure, getBrowserState,
      existsCheck, derefState, derefElement, throwJs, engineOp, callback, h]
  · obtain ⟨d⟩ := sel
    intro h
    have h2 : (some 'C' : Option Char) = some 'T' :=
      congrArg (fun s => s.data.head?) h
    exact absurd h2 (by decide)

/-- Witness for C7: the element-not-found branch on a concrete engine. -/
theorem C7_witness :
    (run (getDomProperty elemNotFoundEngine "#b" "value") (some ⟨1, 2, 3⟩)).trace =
      [.engine (.querySelector 3 "#b"),
       .cb (some ⟨"Couldn\x27t find element: #b", .FAILED_PRECONDITION⟩) none] ∧
    (run (getBoolProperty elemNotFoundEngine "#b" "checked") (some ⟨1, 2, 3⟩)).trace =
      [.engine (.querySelector 3 "#b"),
       .cb (some ⟨"Couldn\x27t find element: #b", .FAILED_PRECONDITION⟩) none] :=
  ⟨(C7_property_handlers_distinct_precondition_messages elemNotFoundEngine
      ⟨1, 2, 3⟩ "#b" "value").2.2.1 rfl,
   (C7_property_handlers_distinct_precondition_messages elemNotFoundEngine
      ⟨1, 2, 3⟩ "#b" "checked").2.2.2.1 rfl⟩

/-- C8: with an open session, when the engine's option enumeration yields a
list of (label, value, selected) triples, `GetSelectContent` responds with
exactly one entry per triple, in the same order, with equal fields. -/
theorem C8_getSelectContent_entries_match_options_in_order
    (eng : Engine) (bs : BrowserState) (sel : String)
    (content : List (String × String × Bool))
    (h : eng.evalOptions bs.page (sel ++ " option") = .ok content) :
    run (getSelectContent eng sel) (some bs) =
      { state := some bs,
        trace := [.engine (.evalOptions bs.page (sel ++ " option")),
          .cb none (some (RespSelect.mk
            (content.map (fun opt => SelectEntry.mk opt.1 opt.2.1 opt.2.2))))],
        thrown := none } := by
  simp [run, getSelectContent, instMonadM, bind, M.bind, pure, M.pure, getBrowserState,
    existsCheck, derefState, engineOp, callback, h]

/-- Witness for C8: options [("A","a",true), ("B","b",false)] yield exactly
those two entries in source order. -/
theorem C8_witness :
    run (getSelectContent okEngine "#s") (some ⟨1, 2, 3⟩) =
      { state := some ⟨1, 2, 3⟩,
        trace := [.engine (.evalOptions 3 "#s option"),
          .cb none (some { entries := [⟨"A", "a", true⟩, ⟨"B", "b", false⟩] })],
        thrown := none } :=
  C8_getSelectContent_entries_match_options_in_order okEngine ⟨1, 2, 3⟩ "#s"
    [("A", "a", true), ("B", "b", false)] rfl

/-- C9: with an open session, when the engine's select operation returns an
empty match list, `selectOption` invokes the response callback twice — first
with the `NOT_FOUND` error and then, since the error branch does not
return, with a success acknowledgement. -/
theorem C9_selectOption_empty_match_double_callback
    (eng : Engine) (bs : BrowserState) (sel : String) (m : List String)
    (h : eng.pageSelectOption bs.page sel m = .ok []) :
    run (selectOption eng sel m) (some bs) =
      { state := some bs,
        trace := [.engine (.pageSelectOption bs.page sel m),
          .cb (some ⟨"No options matched " ++ String.intercalate "," m, .NOT_FOUND⟩) none,
          .cb none (some (emptyWithLog ("Selected options " ++
            String.intercalate "," ([] : List String) ++ " in element " ++ sel)))],
        thrown := none } := by
  simp [run, selectOption, instMonadM, bind, M.bind, pure, M.pure, getBrowserState,
    existsCheck, derefState, engineOp, callback, h]

/-- Witness for C9 on a concrete engine with an empty match result. -/
theorem C9_witness :
    run (selectOption emptySelectEngine "#s" ["x"]) (some ⟨1, 2, 3⟩) =
      { state := some ⟨1, 2, 3⟩,
        trace := [.engine (.pageSelectOption 3 "#s" ["x"]),
          .cb (some ⟨"No options matched x", .NOT_FOUND⟩) none,
          .cb none (some (emptyWithLog "Selected options  in element #s"))],
        thrown := none } :=
  C9_selectOption_empty_match_double_callback emptySelectEngine ⟨1, 2, 3⟩ "#s" ["x"] rfl

end Robonito
